import Mathlib

/-!
# Verification of the ld-crypto-syntax core against its specification

A shallow embedding of the repository's data model and operations:

* `src/context/constants.ts` — the fixed context URLs;
* `src/utils/loader.ts`      — the `network`, `fallback`, `extend`, `basic` loaders;
* `src/types/jsonld/proof.ts` — the `Proof` node shape, the base `Cryptosuite`,
  and the canonicalization / framing / context helpers
  (`canonizeProof`, `expandController`, `includeContext`).

JavaScript values are modelled by the `Json` inductive; a JSON-LD plain
document (an object) by an association list of string keys and `Json` values.
Promise-returning functions that may throw are modelled as `Except`-valued
functions; the error classes of `src/error/` (not part of the released
sources) are modelled by the `JsError` inductive, with the error codes taken
from the code's call sites and the spec's error taxonomy.  The external
`jsonld` primitives (`canonize`, `frame`) and the platform `fetch` are out of
scope per the spec and appear as explicit function parameters.  A JavaScript
function that mutates its argument is modelled in state-passing style: it
returns the mutated value alongside its result.
-/

/-- JavaScript/JSON values, as far as the embedded code observes them. -/
inductive Json where
  | null : Json
  | bool (b : Bool) : Json
  | num (n : Int) : Json
  | str (s : String) : Json
  | arr (items : List Json) : Json
  | obj (entries : List (String × Json)) : Json

/-- Type `OneOrMany<T> = T | T[]` from `src/types/jsonld/base.ts`. -/
inductive OneOrMany (α : Type) where
  | one (x : α) : OneOrMany α
  | many (xs : List α) : OneOrMany α
deriving DecidableEq, Repr

/-- Codes `BasicErrorCode` from `src/error/basic.ts` (file not among the released
sources); the two codes used by `src/utils/loader.ts`. -/
inductive BasicErrorCode where
  | networkConnectionError : BasicErrorCode
  | documentNotFoundError : BasicErrorCode
deriving DecidableEq, Repr

/-- Codes `ErrorCode` from `src/error/constants.ts` (file not among the released
sources).  `notImplementedError` is the code used by `Cryptosuite`; the
remaining codes are modelled from the spec's error taxonomy (§7):
`ControllerNotFoundError`, `MethodNotFoundError`, `MissingPurposeError`,
`MissingProofError`. -/
inductive ErrorCode where
  | notImplementedError : ErrorCode
  | controllerNotFoundError : ErrorCode
  | methodNotFoundError : ErrorCode
  | missingPurposeError : ErrorCode
  | missingProofError : ErrorCode
deriving DecidableEq, Repr

/-- The error values the embedded code can throw: `BasicError(code, name,
message)`, `DataIntegrityError(code, operation, message)`, and the plain
`new Error(message)` of JavaScript. -/
inductive JsError where
  | basicError (code : BasicErrorCode) (name : String) (message : String) : JsError
  | dataIntegrityError (code : ErrorCode) (operation : String) (message : String) : JsError
  | plainError (message : String) : JsError

/-- Shape `RemoteDocument = { documentUrl, contextUrl?, document }` from the loader
interface types. -/
structure RemoteDocument where
  documentUrl : String
  contextUrl : Option String := none
  document : Json

/-- Type `Loader`: an async `URL -> RemoteDocument` function that may throw,
modelled as an `Except`-valued function. -/
def Loader : Type := String → Except JsError RemoteDocument

/-! ## `src/context/constants.ts` -/

def CREDENTIAL_CONTEXT_V1_URL : String := "https://www.w3.org/2018/credentials/v1"

def CREDENTIAL_CONTEXT_V2_URL : String := "https://www.w3.org/ns/credentials/v2"

def SECURITY_CONTEXT_V1_URL : String := "https://w3id.org/security/v1"

def SECURITY_CONTEXT_V2_URL : String := "https://w3id.org/security/v2"

/-- The name under which `proof.ts` imports the security-v2 context URL
(`CONTEXT_URL.SECURITY_V2`); the constants module spells it
`SECURITY_CONTEXT_V2_URL`. -/
def SECURITY_V2 : String := SECURITY_CONTEXT_V2_URL

/-! ## `src/utils/loader.ts` -/

/-- The error message thrown by the `network` loader. -/
def networkErrorMessage (url : String) (error : String) : String :=
  "Failed to fetch the resource from " ++ url ++ ": " ++ error ++ "!"

/-- The error message thrown by the `fallback` loader. -/
def fallbackErrorMessage (url : String) : String :=
  "No custom loader was provided and the document associated with the given URL was not found: "
    ++ url ++ "!"

/-- Function `network(url)`: fetch the URL, parse the response body as JSON, and wrap
the parsed document; any failure of either step is caught and rethrown as a
`BasicError` with code `NETWORK_CONNECTION_ERROR`.  The platform `fetch` and
the response's `json()` method are external effects, passed in as the
`fetchF` and `parseJson` parameters over an abstract response type. -/
def network {Response : Type} (fetchF : String → Except String Response)
    (parseJson : Response → Except String Json) : Loader := fun url =>
  match (fetchF url).bind parseJson with
  | .ok document =>
      .ok { contextUrl := some url, documentUrl := url, document := document }
  | .error error =>
      .error (.basicError .networkConnectionError "loader#defaultLoader"
        (networkErrorMessage url error))

/-- Function `fallback(url)`: always throws a `BasicError` with code
`DOCUMENT_NOT_FOUND_ERROR`. -/
def fallback : Loader := fun url =>
  .error (.basicError .documentNotFoundError "loader#defaultLoader"
    (fallbackErrorMessage url))

/-- Function `extend(loader)`: wrap `loader` so that URLs present in the built-in
context table `URL_CONTEXT_MAP` are answered from the table and the rest fall
through to `loader`.  The table itself lives in `src/context/map.ts`, which is
not among the released sources; per the spec it is a static, immutable
URL→document map, modelled here as an explicit `String → Option Json`
parameter (`map.has url` is `(URL_CONTEXT_MAP url).isSome`, `map.get url` the
carried document). -/
def extend (URL_CONTEXT_MAP : String → Option Json) (loader : Loader) : Loader :=
  fun url =>
    match URL_CONTEXT_MAP url with
    | some document => .ok { documentUrl := url, document := document }
    | none => loader url

/-- Constant `basic`: the basic document loader, which only resolves from the built-in
context table: `extend(fallback)`. -/
def basic (URL_CONTEXT_MAP : String → Option Json) : Loader :=
  extend URL_CONTEXT_MAP fallback

/-! ## `src/types/jsonld/proof.ts` — the `Proof` interface -/

/-- A data integrity proof node (`interface Proof extends NodeObject`).
`context` is the node's `@context` member, which the caller may set to any
JSON-LD context value; `extra` carries the remaining `NodeObject` members the
interface leaves open.  Optional members are `Option`s. -/
structure Proof where
  context : Option Json := none
  id : Option String := none
  type : String
  proofPurpose : String
  verificationMethod : Option String := none
  cryptosuite : Option String := none
  created : Option String := none
  expires : Option String := none
  domain : Option (OneOrMany String) := none
  challenge : Option String := none
  proofValue : Option String := none
  previousProof : Option (OneOrMany String) := none
  nonce : Option String := none
  extra : List (String × Json) := []

/-! ## Canonicalization (`canonize`, `canonizeProof`) -/

/-- The options object passed to the `jsonld.canonize` primitive. -/
structure CanonizeOpts where
  algorithm : String
  format : String
  documentLoader : Loader
  skipExpansion : Bool

/-- Function `canonize(input, options)`: delegates to the external
`jsonld.default.canonize` primitive, which the spec places out of scope;
it is passed in as the `jsonldCanonize` parameter (here at the `Proof` input
type, the type at which `canonizeProof` invokes it). -/
def canonize (jsonldCanonize : Proof → CanonizeOpts → String)
    (input : Proof) (options : CanonizeOpts) : String :=
  jsonldCanonize input options

/-- Function `canonizeProof(proof, loader)`: mutates `proof` in place — sets
`proof["@context"] = CONTEXT_URL.SECURITY_V2`, deletes `proof.nonce` and
`proof.proofValue` — and then canonizes the mutated node with URDNA2015.
Modelled in state-passing style: the returned pair is (canonized string,
the proof object as the caller observes it after the call). -/
def canonizeProof (jsonldCanonize : Proof → CanonizeOpts → String)
    (proof : Proof) (loader : Loader) : String × Proof :=
  let proof := { proof with
    context := some (Json.str SECURITY_V2), nonce := none, proofValue := none }
  (canonize jsonldCanonize proof
    { algorithm := "URDNA2015", format := "application/n-quads",
      documentLoader := loader, skipExpansion := false }, proof)

/-! ## The base `Cryptosuite` -/

/-- Shape `CreateOptions = { proof, loader? }`. -/
structure CreateOptions where
  proof : Proof
  loader : Option Loader := none

/-- Shape `VerifyOptions = { loader? }`. -/
structure VerifyOptions where
  loader : Option Loader := none

/-- Shape `VerificationResult`: `verified`, optional `verifiedDocument` (a plain
document, i.e. a JSON object), optional `warnings`/`errors`. -/
structure VerificationResult where
  verified : Bool
  verifiedDocument : Option (List (String × Json)) := none
  warnings : Option (OneOrMany JsError) := none
  errors : Option (OneOrMany JsError) := none

namespace Cryptosuite

/-- Constant `Cryptosuite.type`. -/
def type : String := "DataIntegrityProof"

/-- Method `Cryptosuite.createProof(inputDocument, options)`: the base class method
unconditionally throws a `DataIntegrityError` with code
`NOT_IMPLEMENTED_ERROR`. -/
def createProof (_inputDocument : List (String × Json)) (_options : CreateOptions) :
    Except JsError Proof :=
  .error (.dataIntegrityError .notImplementedError "Cryptosuite.createProof"
    "The createProof method must be implemented by a subclass.")

/-- Method `Cryptosuite.verifyProof(securedDocument, options)`: the base class method
unconditionally throws a `DataIntegrityError` with code
`NOT_IMPLEMENTED_ERROR`. -/
def verifyProof (_securedDocument : List (String × Json)) (_options : VerifyOptions) :
    Except JsError VerificationResult :=
  .error (.dataIntegrityError .notImplementedError "Cryptosuite.verifyProof"
    "The verifyProof method must be implemented by a subclass.")

end Cryptosuite

/-! ## Framing (`expandController`) and `includeContext` -/

/-- The options object passed to `jsonld.frame` by `expandController`. -/
structure FrameOpts where
  documentLoader : Loader
  compactToRelative : Bool
  safe : Bool

/-- The frame object `expandController` builds:
`{"@context": SECURITY_V2, id: controller, [term]: {"@embed": "@never",
id: verificationId}}`. -/
def controllerFrame (controller : String) (term : String) (verificationId : String) :
    Json :=
  Json.obj [("@context", Json.str SECURITY_V2), ("id", Json.str controller),
    (term, Json.obj [("@embed", Json.str "@never"), ("id", Json.str verificationId)])]

/-- Function `expandController(document, controller, term, verificationId, loader)`:
frames the controller document against `controllerFrame`; when the framing
result is falsy (`if (!framed)`) it throws a plain
`new Error("Controller ... not found.")`, otherwise returns the framed
document.  The external `jsonld.default.frame` primitive is the `frame`
parameter; a falsy result is `none`. -/
def expandController (frame : List (String × Json) → Json → FrameOpts → Option Json)
    (document : List (String × Json)) (controller : String) (term : String)
    (verificationId : String) (loader : Loader) : Except JsError Json :=
  match frame document (controllerFrame controller term verificationId)
      { documentLoader := loader, compactToRelative := false, safe := true } with
  | some framed => .ok framed
  | none => .error (.plainError ("Controller " ++ controller ++ " not found."))

/-- JavaScript property lookup `document[key]` on a plain object, `none` for
an absent property. -/
def lookupKey (document : List (String × Json)) (key : String) : Option Json :=
  match document with
  | [] => none
  | (k, v) :: rest => if k = key then some v else lookupKey rest key

/-- JavaScript `xs.includes(s)` for a string `s`: some element of `xs` is
(`===`) the string primitive `s`. -/
def jsIncludesString (xs : List Json) (s : String) : Bool :=
  xs.any fun x =>
    match x with
    | .str t => t = s
    | _ => false

/-- Function `includeContext(document, context)`: `true` when `document["@context"]`
is (`===`) the string `context`, or is an array containing it; `false`
otherwise. -/
def includeContext (document : List (String × Json)) (context : String) : Bool :=
  let fromContext := lookupKey document "@context"
  match fromContext with
  | some (.str s) => if s = context then true else false
  | some (.arr xs) => jsIncludesString xs context
  | _ => false

/-- Two proof nodes that agree on every member other than `@context`, `nonce`
and `proofValue`. -/
def agreesOutsideStripped (p q : Proof) : Prop :=
  p.id = q.id ∧ p.type = q.type ∧ p.proofPurpose = q.proofPurpose ∧
  p.verificationMethod = q.verificationMethod ∧ p.cryptosuite = q.cryptosuite ∧
  p.created = q.created ∧ p.expires = q.expires ∧ p.domain = q.domain ∧
  p.challenge = q.challenge ∧ p.previousProof = q.previousProof ∧ p.extra = q.extra

/-- Whether an error value is a `ControllerNotFoundError` of the spec's error
taxonomy (§7): a `DataIntegrityError` carrying the `controllerNotFoundError`
code.  Modelled from the spec: the error classes live in `src/error/`, which
is not among the released sources. -/
def JsError.isControllerNotFoundError : JsError → Bool
  | .dataIntegrityError .controllerNotFoundError _ _ => true
  | _ => false

/-! ## Theorems -/

/-- Claim C2: the canonical proof-options output is invariant under the
`proofValue` member: canonizing a proof with `proofValue` set to any value
(or absent) yields byte-identical output, for every canonicalization
primitive, proof node and loader. -/
theorem canonizeProof_ignores_proofValue (jc : Proof → CanonizeOpts → String)
    (l : Loader) (p : Proof) (v w : Option String) :
    (canonizeProof jc { p with proofValue := v } l).1 =
      (canonizeProof jc { p with proofValue := w } l).1 := rfl

/-- Claim C9: `canonizeProof` mutates its argument in place: after the call
the caller's proof has `@context` overwritten with the security-v2 context,
`nonce` and `proofValue` deleted, and every other member unchanged. -/
theorem canonizeProof_mutates_argument (jc : Proof → CanonizeOpts → String)
    (p : Proof) (l : Loader) :
    (canonizeProof jc p l).2.context = some (Json.str SECURITY_V2) ∧
    (canonizeProof jc p l).2.nonce = none ∧
    (canonizeProof jc p l).2.proofValue = none ∧
    (canonizeProof jc p l).2.id = p.id ∧
    (canonizeProof jc p l).2.type = p.type ∧
    (canonizeProof jc p l).2.proofPurpose = p.proofPurpose ∧
    (canonizeProof jc p l).2.verificationMethod = p.verificationMethod ∧
    (canonizeProof jc p l).2.cryptosuite = p.cryptosuite ∧
    (canonizeProof jc p l).2.created = p.created ∧
    (canonizeProof jc p l).2.expires = p.expires ∧
    (canonizeProof jc p l).2.domain = p.domain ∧
    (canonizeProof jc p l).2.challenge = p.challenge ∧
    (canonizeProof jc p l).2.previousProof = p.previousProof ∧
    (canonizeProof jc p l).2.extra = p.extra :=
  ⟨rfl, rfl, rfl, rfl, rfl, rfl, rfl, rfl, rfl, rfl, rfl, rfl, rfl, rfl⟩

/-- Claim C4: the `fallback` loader never returns a document; for every URL it
fails with a `BasicError` whose code is `DOCUMENT_NOT_FOUND_ERROR`. -/
theorem fallback_always_documentNotFound (url : String) :
    fallback url = Except.error (JsError.basicError .documentNotFoundError
      "loader#defaultLoader" (fallbackErrorMessage url)) ∧
    (fallback url).isOk = false := ⟨rfl, rfl⟩

/-- Claim C7: the base `Cryptosuite`'s `createProof` and `verifyProof` fail
with a `DataIntegrityError` of code `NOT_IMPLEMENTED_ERROR` on every input,
and neither ever returns a proof or a verification result. -/
theorem cryptosuite_base_notImplemented (d : List (String × Json))
    (co : CreateOptions) (d' : List (String × Json)) (vo : VerifyOptions) :
    Cryptosuite.createProof d co = Except.error (JsError.dataIntegrityError
      .notImplementedError "Cryptosuite.createProof"
      "The createProof method must be implemented by a subclass.") ∧
    (Cryptosuite.createProof d co).isOk = false ∧
    Cryptosuite.verifyProof d' vo = Except.error (JsError.dataIntegrityError
      .notImplementedError "Cryptosuite.verifyProof"
      "The verifyProof method must be implemented by a subclass.") ∧
    (Cryptosuite.verifyProof d' vo).isOk = false := ⟨rfl, rfl, rfl, rfl⟩

/-- Claim C1: `canonizeProof` hands the canonicalization primitive exactly the
node obtained from the input by fixing `@context` to the security-v2 URL and
deleting `nonce` and `proofValue`; consequently the canonical output is the
same for any two proofs that agree outside those three members — it never
reflects `nonce`, `proofValue`, or a caller-supplied `@context`. -/
theorem canonizeProof_strips_before_canonize (jc : Proof → CanonizeOpts → String)
    (p : Proof) (l : Loader) :
    (canonizeProof jc p l).1 =
      jc { p with
           context := some (Json.str SECURITY_V2)
           nonce := none
           proofValue := none }
         { algorithm := "URDNA2015", format := "application/n-quads",
           documentLoader := l, skipExpansion := false } ∧
    ∀ q : Proof, agreesOutsideStripped p q →
      (canonizeProof jc p l).1 = (canonizeProof jc q l).1 := by
  refine ⟨rfl, ?_⟩
  rintro q ⟨h1, h2, h3, h4, h5, h6, h7, h8, h9, h10, h11⟩
  obtain ⟨_, _, _, _, _, _, _, _, _, _, _, _, _, _⟩ := p
  obtain ⟨_, _, _, _, _, _, _, _, _, _, _, _, _, _⟩ := q
  simp only at h1 h2 h3 h4 h5 h6 h7 h8 h9 h10 h11
  subst h1 h2 h3 h4 h5 h6 h7 h8 h9 h10 h11
  rfl

/-- Witness for claim C1 at concrete inputs: two proofs differing only in
`nonce`, `proofValue` and caller-supplied `@context` canonize identically. -/
theorem canonizeProof_strips_before_canonize_witness :
    (canonizeProof (fun _ _ => "out")
      { type := "DataIntegrityProof", proofPurpose := "assertionMethod",
        nonce := some "n-123", proofValue := some "zSig" } fallback).1 =
    (canonizeProof (fun _ _ => "out")
      { type := "DataIntegrityProof", proofPurpose := "assertionMethod",
        context := some (Json.str "https://example.org/custom") } fallback).1 :=
  (canonizeProof_strips_before_canonize (fun _ _ => "out")
    { type := "DataIntegrityProof", proofPurpose := "assertionMethod",
      nonce := some "n-123", proofValue := some "zSig" } fallback).2
    { type := "DataIntegrityProof", proofPurpose := "assertionMethod",
      context := some (Json.str "https://example.org/custom") }
    ⟨rfl, rfl, rfl, rfl, rfl, rfl, rfl, rfl, rfl, rfl, rfl⟩

/-- Claim C3: `extend f` answers a URL from the built-in context table —
with `documentUrl` the URL itself — whenever the URL is a key of the table,
independently of `f` (so `f` is never consulted), and returns exactly `f url`
whenever it is not. -/
theorem extend_table_shortcircuit (m : String → Option Json) (f : Loader)
    (u : String) :
    (∀ d, m u = some d →
      extend m f u = Except.ok { documentUrl := u, document := d } ∧
      ∀ g : Loader, extend m f u = extend m g u) ∧
    (m u = none → extend m f u = f u) := by
  constructor
  · intro d hd
    refine ⟨?_, fun g => ?_⟩ <;> simp [extend, hd]
  · intro h
    simp [extend, h]

/-- A concrete stand-in for the built-in context table: it carries an (empty)
document for the security-v2 context URL only. -/
def demoMap : String → Option Json := fun u =>
  if u = SECURITY_CONTEXT_V2_URL then some (Json.obj []) else none

/-- Witness for claim C3 at concrete inputs: a table hit is served from the
table, a miss falls through to the wrapped loader. -/
theorem extend_table_shortcircuit_witness :
    extend demoMap fallback SECURITY_CONTEXT_V2_URL =
      Except.ok { documentUrl := SECURITY_CONTEXT_V2_URL, document := Json.obj [] } ∧
    extend demoMap fallback "https://example.org/missing" =
      fallback "https://example.org/missing" :=
  ⟨((extend_table_shortcircuit demoMap fallback SECURITY_CONTEXT_V2_URL).1
      (Json.obj []) (by simp [demoMap])).1,
   (extend_table_shortcircuit demoMap fallback "https://example.org/missing").2
      (by simp [demoMap, SECURITY_CONTEXT_V2_URL])⟩

/-- Claim C10: `basic` is `extend fallback`: a URL in the built-in table is
answered from the table, any other URL fails with a `BasicError` of code
`DOCUMENT_NOT_FOUND_ERROR`; no network fetch is involved in either case. -/
theorem basic_resolves_table_only (m : String → Option Json) (u : String) :
    basic m = extend m fallback ∧
    (∀ d, m u = some d →
      basic m u = Except.ok { documentUrl := u, document := d }) ∧
    (m u = none →
      basic m u = Except.error (JsError.basicError .documentNotFoundError
        "loader#defaultLoader" (fallbackErrorMessage u))) := by
  refine ⟨rfl, fun d hd => ?_, fun h => ?_⟩
  · simp [basic, extend, hd]
  · simp [basic, extend, fallback, h]

/-- Witness for claim C10 at concrete inputs. -/
theorem basic_resolves_table_only_witness :
    basic demoMap SECURITY_CONTEXT_V2_URL =
      Except.ok { documentUrl := SECURITY_CONTEXT_V2_URL, document := Json.obj [] } ∧
    basic demoMap "https://example.org/missing" =
      Except.error (JsError.basicError .documentNotFoundError
        "loader#defaultLoader" (fallbackErrorMessage "https://example.org/missing")) :=
  ⟨(basic_resolves_table_only demoMap SECURITY_CONTEXT_V2_URL).2.1
      (Json.obj []) (by simp [demoMap]),
   (basic_resolves_table_only demoMap "https://example.org/missing").2.2
      (by simp [demoMap, SECURITY_CONTEXT_V2_URL])⟩

/-- Claim C5: the `network` loader fails with a `BasicError` of code
`NETWORK_CONNECTION_ERROR` — and with no other error kind — whenever the
fetch fails or the response body fails to parse as JSON, and returns the
parsed document wrapped in a `RemoteDocument` when both steps succeed. -/
theorem network_fetch_or_parse_failure {Response : Type}
    (fetchF : String → Except String Response)
    (parseJson : Response → Except String Json) (u : String) :
    (∀ e, fetchF u = Except.error e →
      network fetchF parseJson u = Except.error (JsError.basicError
        .networkConnectionError "loader#defaultLoader" (networkErrorMessage u e))) ∧
    (∀ r e, fetchF u = Except.ok r → parseJson r = Except.error e →
      network fetchF parseJson u = Except.error (JsError.basicError
        .networkConnectionError "loader#defaultLoader" (networkErrorMessage u e))) ∧
    (∀ r d, fetchF u = Except.ok r → parseJson r = Except.ok d →
      network fetchF parseJson u =
        Except.ok { documentUrl := u, contextUrl := some u, document := d }) := by
  refine ⟨fun e he => ?_, fun r e hr he => ?_, fun r d hr hd => ?_⟩
  · simp [network, he, Except.bind]
  · simp [network, hr, he, Except.bind]
  · simp [network, hr, hd, Except.bind]

/-- Witness for claim C5 at concrete inputs: a failing fetch, a failing parse
and a successful round trip. -/
theorem network_fetch_or_parse_failure_witness :
    @network Json (fun _ => Except.error "connection refused") (fun r => Except.ok r)
        "https://example.org/doc" =
      Except.error (JsError.basicError .networkConnectionError "loader#defaultLoader"
        (networkErrorMessage "https://example.org/doc" "connection refused")) ∧
    @network Json (fun _ => Except.ok (Json.str "not json"))
        (fun _ => Except.error "unexpected token") "https://example.org/doc" =
      Except.error (JsError.basicError .networkConnectionError "loader#defaultLoader"
        (networkErrorMessage "https://example.org/doc" "unexpected token")) ∧
    @network Json (fun _ => Except.ok (Json.obj [("a", Json.num 1)]))
        (fun r => Except.ok r) "https://example.org/doc" =
      Except.ok { documentUrl := "https://example.org/doc",
                  contextUrl := some "https://example.org/doc",
                  document := Json.obj [("a", Json.num 1)] } :=
  ⟨(network_fetch_or_parse_failure (fun _ => Except.error "connection refused")
      (fun r => Except.ok r) "https://example.org/doc").1 "connection refused" rfl,
   (network_fetch_or_parse_failure (fun _ => Except.ok (Json.str "not json"))
      (fun _ => Except.error "unexpected token") "https://example.org/doc").2.1
      (Json.str "not json") "unexpected token" rfl rfl,
   (network_fetch_or_parse_failure (fun _ => Except.ok (Json.obj [("a", Json.num 1)]))
      (fun r => Except.ok r) "https://example.org/doc").2.2
      (Json.obj [("a", Json.num 1)]) (Json.obj [("a", Json.num 1)]) rfl rfl⟩

/-- Helper fact: `jsIncludesString` agrees with list membership of the string node. -/
theorem jsIncludesString_iff (xs : List Json) (s : String) :
    jsIncludesString xs s = true ↔ Json.str s ∈ xs := by
  simp only [jsIncludesString, List.any_eq_true]
  constructor
  · rintro ⟨x, hx, hmatch⟩
    cases x <;> simp at hmatch
    exact hmatch ▸ hx
  · intro h
    exact ⟨Json.str s, h, by simp⟩

/-- Claim C6: `includeContext document context` is `true` exactly when
`context` appears in `document["@context"]`, either as the sole string value
or as a member of an array of context values, and `false` in every other
case. -/
theorem includeContext_iff (document : List (String × Json)) (context : String) :
    includeContext document context = true ↔
      (lookupKey document "@context" = some (Json.str context) ∨
       ∃ xs, lookupKey document "@context" = some (Json.arr xs) ∧
         Json.str context ∈ xs) := by
  unfold includeContext
  cases h : lookupKey document "@context" with
  | none => simp
  | some v =>
    cases v with
    | str s =>
      by_cases hs : s = context
      · subst hs; simp
      · simp [hs, Ne.symm hs, fun hh => hs (Json.str.inj hh).symm]
    | arr xs => simp [jsIncludesString_iff]
    | null => simp
    | bool b => simp
    | num n => simp
    | obj entries => simp

/-- Witness for claim C6 at a concrete document whose `@context` is a set of
context URLs. -/
theorem includeContext_iff_witness :
    includeContext
      [("@context", Json.arr [Json.str SECURITY_CONTEXT_V1_URL,
          Json.str SECURITY_CONTEXT_V2_URL])]
      SECURITY_CONTEXT_V2_URL = true :=
  (includeContext_iff _ _).mpr
    (Or.inr ⟨[Json.str SECURITY_CONTEXT_V1_URL, Json.str SECURITY_CONTEXT_V2_URL],
      rfl, by simp⟩)

/-- Amended claim C8: when framing the controller document yields no match
(a falsy result), `expandController` throws the plain JavaScript
`Error("Controller ... not found.")` — not a dedicated
`ControllerNotFoundError` — and when framing yields a document it returns
exactly that framed document. -/
theorem expandController_frames_or_fails
    (frame : List (String × Json) → Json → FrameOpts → Option Json)
    (document : List (String × Json)) (controller : String) (term : String)
    (verificationId : String) (l : Loader) :
    (frame document (controllerFrame controller term verificationId)
        { documentLoader := l, compactToRelative := false, safe := true } = none →
      expandController frame document controller term verificationId l =
        Except.error (JsError.plainError
          ("Controller " ++ controller ++ " not found."))) ∧
    (∀ fd, frame document (controllerFrame controller term verificationId)
        { documentLoader := l, compactToRelative := false, safe := true } = some fd →
      expandController frame document controller term verificationId l =
        Except.ok fd) := by
  refine ⟨fun h => ?_, fun fd h => ?_⟩ <;> simp [expandController, h]

/-- Witness for the amended claim C8 at concrete inputs: one framing that
yields no match, one that yields a framed document. -/
theorem expandController_frames_or_fails_witness :
    expandController (fun _ _ _ => none) [] "did:example:bob" "authentication"
        "did:example:bob#key-1" fallback =
      Except.error (JsError.plainError "Controller did:example:bob not found.") ∧
    expandController (fun _ _ _ => some (Json.obj [("id", Json.str "did:example:bob")]))
        [] "did:example:bob" "authentication" "did:example:bob#key-1" fallback =
      Except.ok (Json.obj [("id", Json.str "did:example:bob")]) :=
  ⟨(expandController_frames_or_fails (fun _ _ _ => none) [] "did:example:bob"
      "authentication" "did:example:bob#key-1" fallback).1 rfl,
   (expandController_frames_or_fails
      (fun _ _ _ => some (Json.obj [("id", Json.str "did:example:bob")])) []
      "did:example:bob" "authentication" "did:example:bob#key-1" fallback).2
      (Json.obj [("id", Json.str "did:example:bob")]) rfl⟩

/-- Counterexample to claim C8 as stated: at a concrete no-match input the
error `expandController` throws is the plain
`Error("Controller did:example:alice not found.")`, which is not a
`ControllerNotFoundError` of the spec's taxonomy. -/
theorem expandController_not_controllerNotFoundError :
    expandController (fun _ _ _ => none) [] "did:example:alice" "assertionMethod"
        "did:example:alice#key-1" fallback =
      Except.error (JsError.plainError "Controller did:example:alice not found.") ∧
    (JsError.plainError
        "Controller did:example:alice not found.").isControllerNotFoundError
      = false := ⟨rfl, rfl⟩
